import Mathlib

/-!
Shallow embedding of the Flask camera/YOLOv5 server in `run.py`.

The module-level globals of the script (`camera`, `output_frame`,
`detection_enabled`, `model`) become the fields of `SysState`; every HTTP
handler becomes a function `SysState → SysState × response`.  The parts of the
outside world the script consults (the filesystem, torch, the camera device,
the JPEG encoder, the network address) are collected in an `Env` record, so
each source function is translated as a pure function of `Env` and the state.
-/

namespace Run

/-- A detection row as iterated by detect_objects: the corner coordinates, the
class label, and the confidence score (the float score is abstracted to an
integer number of hundredths; no claim depends on its value). -/
structure Detection where
  xmin : Int
  ymin : Int
  xmax : Int
  ymax : Int
  label : String
  confidence : Nat
deriving DecidableEq

/-- A pixel frame.  `raw` identifies the image the camera delivered; the
overlays that cv2.rectangle / cv2.putText burn into the buffer are tracked as
the drawn boxes and the two text overlays (the "Detection: ON/OFF" status line
and the "Access: http://ip:5000" address line). -/
structure Frame where
  raw : Nat
  boxes : List Detection
  statusText : Option String
  addressText : Option String
deriving DecidableEq

/-- The outside world as `run.py` observes it: whether `yolov5s.pt` exists
(`os.path.exists`), whether `torch.hub.load` succeeds, what the model returns
(or raises) on each raw image, whether `cv2.VideoCapture(0).isOpened()`,
what `camera.read()` yields at each loop tick (`none` = read failure),
whether `cv2.imencode` succeeds, and the machine's IP address. -/
structure Env where
  modelFileExists : Bool
  modelLoads : Bool
  detectorResult : Nat → Except Unit (List Detection)
  cameraOpens : Bool
  cameraRead : Nat → Option Nat
  encodeOk : Frame → Bool
  ipAddress : String

/-- The module-level globals of `run.py`: `camera` (None or a VideoCapture
handle, identified by the value of the instrumentation counter at open time),
`output_frame` (the shared frame slot), `detection_enabled`, and `model`.
`opens` is ghost instrumentation counting calls to `cv2.VideoCapture(0)`, used
to state that no second camera handle is ever opened. -/
structure SysState where
  camera : Option Nat
  output_frame : Option Frame
  detection_enabled : Bool
  model : Option Unit
  opens : Nat
deriving DecidableEq

/-- Initial globals: `camera = None`, `output_frame = None`,
`detection_enabled = True`, `model = None`. -/
def init : SysState := ⟨none, none, true, none, 0⟩

/-- check_model_file (run.py lines 42-47): `os.path.exists('yolov5s.pt')`. -/
def check_model_file (env : Env) : Bool := env.modelFileExists

/-- load_model (run.py lines 24-39): `torch.hub.load(...)` inside try/except;
returns the model on success and None on any exception. -/
def load_model (env : Env) : Option Unit :=
  if env.modelLoads then some () else none

/-- The try-block of detect_objects (run.py lines 59-82): run inference and
draw each returned box onto the frame; a raised exception is caught and
logged, leaving the frame without boxes. -/
def run_inference (env : Env) (frame : Frame) : Frame :=
  match env.detectorResult frame.raw with
  | .error _ => frame
  | .ok dets => { frame with boxes := frame.boxes ++ dets }

/-- detect_objects (run.py lines 50-83): if the global `model` is None try to
load it, returning the frame unchanged when loading fails; otherwise run
inference with the exception handler.  Returns the new `model` global and the
frame. -/
def detect_objects (env : Env) (model : Option Unit) (frame : Frame) :
    Option Unit × Frame :=
  let loaded := match model with
    | none => load_model env
    | some m => some m
  match loaded with
  | none => (none, frame)
  | some m => (some m, run_inference env frame)

/-- The "Detection: ON"/"Detection: OFF" status text put on each frame
(run.py lines 120-128). -/
def statusOverlay (enabled : Bool) : String :=
  "Detection: " ++ (if enabled then "ON" else "OFF")

/-- The access-address text put on each frame (run.py lines 131-139). -/
def addressOverlay (ip : String) : String :=
  "Access: http://" ++ ip ++ ":5000"

/-- One pass of the while-True body of capture_frames (run.py lines 101-147):
`none` means the loop breaks (the `camera` global is None); a read failure is
logged and the loop continues unchanged; otherwise the frame is (optionally)
run through detect_objects, gets the status and address overlays, and a copy
is published into `output_frame` under the lock. -/
def capture_iteration (env : Env) (tick : Nat) (s : SysState) :
    Option SysState :=
  match s.camera with
  | none => none
  | some _ =>
    match env.cameraRead tick with
    | none => some s
    | some raw =>
      let frame0 : Frame := ⟨raw, [], none, none⟩
      let md := if s.detection_enabled then detect_objects env s.model frame0
                else (s.model, frame0)
      let frame1 := { md.2 with statusText := some (statusOverlay s.detection_enabled) }
      let frame2 := { frame1 with addressText := some (addressOverlay env.ipAddress) }
      some { s with model := md.1, output_frame := some frame2 }

/-- Fuel-bounded run of the capture loop (run.py lines 101-147). -/
def capture_loop (env : Env) : Nat → Nat → SysState → SysState
  | 0, _, s => s
  | fuel + 1, tick, s =>
    match capture_iteration env tick s with
    | none => s
    | some s1 => capture_loop env fuel (tick + 1) s1

/-- capture_frames (run.py lines 86-147), the body of the background thread:
if check_model_file fails the function returns at once (publishing nothing);
otherwise it loads the model when the global is None and enters the loop. -/
def capture_frames (env : Env) (fuel : Nat) (s : SysState) : SysState :=
  if check_model_file env then
    let s0 : SysState :=
      { s with model := match s.model with
          | none => load_model env
          | some m => some m }
    capture_loop env fuel 0 s0
  else s

/-- A jsonify response of the control endpoints: the `status` string and the
optional `success` and `detection_enabled` keys (`none` = key absent from the
JSON object). -/
structure ApiResponse where
  status : String
  success : Option Bool
  detection_enabled : Option Bool
deriving DecidableEq

/-- start_camera (run.py lines 196-220).  `req` is the optional `detection`
field of the JSON request body: `none` when the body is not JSON or has no
such key, in
which case the code uses `True`.  Note the source sets the `camera` global to
the VideoCapture object before testing `isOpened()`, so the global stays
non-None even when the open fails; and the "already running" response carries
no `success` key.  The try/except around the body is not modelled because
neither `cv2.VideoCapture` nor `Thread.start` raises in the modelled
environment. -/
def start_camera (env : Env) (req : Option Bool) (s : SysState) :
    SysState × ApiResponse :=
  if s.camera.isSome then
    (s, ⟨"Camera is already running", none, none⟩)
  else
    let s1 : SysState := { s with camera := some s.opens, opens := s.opens + 1 }
    if env.cameraOpens then
      let s2 : SysState := { s1 with detection_enabled := req.getD true }
      (s2, ⟨"Camera started successfully", some true, none⟩)
    else
      (s1, ⟨"Failed to open camera", some false, none⟩)

/-- stop_camera (run.py lines 222-243): no-op failure when `camera` is None;
otherwise release the handle, set `camera = None` and clear `output_frame`
under the lock. -/
def stop_camera (s : SysState) : SysState × ApiResponse :=
  if s.camera.isNone then
    (s, ⟨"Camera is not running", some false, none⟩)
  else
    ({ s with camera := none, output_frame := none },
     ⟨"Camera stopped successfully", some true, none⟩)

/-- toggle_detection (run.py lines 245-263): failure when `camera` is None;
otherwise flip `detection_enabled` and report the new value. -/
def toggle_detection (s : SysState) : SysState × ApiResponse :=
  if s.camera.isNone then
    (s, ⟨"Camera is not running", some false, none⟩)
  else
    ({ s with detection_enabled := !s.detection_enabled },
     ⟨"Detection toggled successfully", some true, some (!s.detection_enabled)⟩)

/-- The jsonify body of the /status endpoint. -/
structure StatusResponse where
  camera_running : Bool
  detection_enabled : Bool
  server_ip : String
deriving DecidableEq

/-- get_status (run.py lines 265-275): a pure read; reports
`detection_enabled if camera_running else False`. -/
def get_status (env : Env) (s : SysState) : SysState × StatusResponse :=
  let camera_running := s.camera.isSome
  (s, ⟨camera_running,
       if camera_running then s.detection_enabled else false,
       env.ipAddress⟩)

/-- One pass of the while-True body of generate (run.py lines 150-170): read
`output_frame` under the lock; if it is None the body executes `continue`
(yielding nothing), likewise when JPEG encoding fails or raises; otherwise one
multipart chunk built from the encoded frame is yielded.  The body contains no
break or return, so the loop itself never terminates. -/
def generate_step (env : Env) (slot : Option Frame) : Option Frame :=
  match slot with
  | none => none
  | some f => if env.encodeOk f then some f else none

/-- The frames yielded by the first `n` passes of generate's loop over a fixed
slot value. -/
def generate_run (env : Env) (slot : Option Frame) : Nat → List Frame
  | 0 => []
  | n + 1 =>
    match generate_step env slot with
    | none => generate_run env slot n
    | some c => c :: generate_run env slot n

/-- The spec-level session state: Running exactly when the `camera` global is
non-None, which is also how get_status computes `camera_running`. -/
inductive SessState where
  | Stopped
  | Running
deriving DecidableEq

/-- The session state read off the globals. -/
def sessionState (s : SysState) : SessState :=
  if s.camera.isSome then .Running else .Stopped

/-- A session-controller call: POST /start_camera (with its optional
`detection` body field) or POST /stop_camera. -/
inductive Op where
  | start (req : Option Bool)
  | stop

/-- Apply one controller call to the globals. -/
def applyOp (env : Env) (s : SysState) : Op → SysState
  | .start req => (start_camera env req s).1
  | .stop => (stop_camera s).1

/-- Apply a sequence of controller calls to the globals. -/
def runOps (env : Env) (s : SysState) : List Op → SysState
  | [] => s
  | op :: ops => runOps env (applyOp env s op) ops

/-- The status text of the frame published by one capture iteration, when the
iteration runs and publishes. -/
def publishedStatusText (env : Env) (tick : Nat) (s : SysState) :
    Option String :=
  match capture_iteration env tick s with
  | none => none
  | some s1 =>
    match s1.output_frame with
    | none => none
    | some f => f.statusText

/-- Buffer-identity model of the capture loop, for aliasing claims.  The heap
lists every pixel buffer ever allocated, indexed by allocation order; `slot`
is the buffer id `output_frame` points at.  `camera.read()` fills a fresh
buffer, cv2.rectangle/cv2.putText mutate that working buffer in place, and
`output_frame = frame.copy()` allocates a fresh copy and repoints the slot. -/
structure BufState where
  heap : List Frame
  slot : Option Nat
deriving DecidableEq

/-- One capture iteration in the buffer-identity model: allocate the raw
buffer the camera delivers, annotate it in place, then publish a copy into a
fresh buffer (run.py line 143: `output_frame = frame.copy()`). -/
def capture_iter_buf (env : Env) (enabled : Bool) (tick : Nat)
    (bs : BufState) : BufState :=
  let raw : Frame := ⟨tick, [], none, none⟩
  let wid := bs.heap.length
  let heap1 := bs.heap ++ [raw]
  let md := if enabled then detect_objects env (some ()) raw
            else (some (), raw)
  let ann : Frame :=
    { md.2 with statusText := some (statusOverlay enabled),
                addressText := some (addressOverlay env.ipAddress) }
  let heap2 := heap1.set wid ann
  ⟨heap2 ++ [ann], some heap2.length⟩

/-- Several capture iterations in the buffer-identity model. -/
def capture_run_buf (env : Env) (enabled : Bool) :
    Nat → Nat → BufState → BufState
  | 0, _, bs => bs
  | n + 1, tick, bs =>
    capture_run_buf env enabled n (tick + 1) (capture_iter_buf env enabled tick bs)

/-- The frame a capture iteration publishes when the detector draws no boxes:
the raw image with only the status and address overlays. -/
def plainFrame (env : Env) (raw : Nat) (enabled : Bool) : Frame :=
  ⟨raw, [], some (statusOverlay enabled), some (addressOverlay env.ipAddress)⟩

/-- A benign environment: model file present, model loads, detector returns no
boxes, camera opens, every read succeeds, encoding succeeds. -/
def envOk : Env :=
  ⟨true, true, fun _ => .ok [], true, fun _ => some 0, fun _ => true, "10.0.0.5"⟩

/-- The globals after one successful start from the initial state. -/
def sRun : SysState := (start_camera envOk none init).1

/-- Claim C1: for every sequence of start_camera/stop_camera calls from the
initial globals, the session state is one of Stopped/Running, and the camera
handle is present (the `camera` global is non-None) iff the state is
Running. -/
theorem c1_session_invariant (env : Env) (ops : List Op) :
    (sessionState (runOps env init ops) = .Stopped ∨
     sessionState (runOps env init ops) = .Running) ∧
    ((runOps env init ops).camera.isSome = true ↔
     sessionState (runOps env init ops) = .Running) := by
  unfold sessionState
  rcases h : (runOps env init ops).camera.isSome <;> simp [h]

/-- Claim C4: when stop_camera succeeds (the camera was running), the frame
slot is cleared: the new `output_frame` is None. -/
theorem c4_stop_clears_slot (s : SysState) (h : s.camera.isSome = true) :
    (stop_camera s).2.success = some true ∧
    (stop_camera s).1.output_frame = none := by
  unfold stop_camera
  rcases hc : s.camera with _ | k
  · rw [hc] at h; simp at h
  · simp [hc]

/-- Witness for c4_stop_clears_slot at the state reached by one successful
start. -/
theorem c4_stop_clears_slot_witness :
    (stop_camera sRun).2.success = some true ∧
    (stop_camera sRun).1.output_frame = none :=
  c4_stop_clears_slot sRun rfl

/-- Claim C6: a second consecutive stop_camera returns the "not running"
failure and changes nothing, and a second consecutive start_camera returns
"already running" (changing nothing) while the first start opened exactly one
camera handle. -/
theorem c6_idempotent (env : Env) (r1 r2 : Option Bool) (s u : SysState)
    (h : s.camera = none) :
    stop_camera (stop_camera u).1 =
      ((stop_camera u).1, ⟨"Camera is not running", some false, none⟩) ∧
    start_camera env r2 (start_camera env r1 s).1 =
      ((start_camera env r1 s).1, ⟨"Camera is already running", none, none⟩) ∧
    (start_camera env r1 s).1.opens = s.opens + 1 := by
  refine ⟨?_, ?_, ?_⟩
  · rcases hu : u.camera with _ | k <;> simp [stop_camera, hu]
  · rcases hc : env.cameraOpens <;> simp [start_camera, h, hc]
  · rcases hc : env.cameraOpens <;> simp [start_camera, h, hc]

/-- Witness for c6_idempotent from the initial globals. -/
theorem c6_idempotent_witness :
    stop_camera (stop_camera init).1 =
      ((stop_camera init).1, ⟨"Camera is not running", some false, none⟩) ∧
    start_camera envOk none (start_camera envOk none init).1 =
      ((start_camera envOk none init).1,
       ⟨"Camera is already running", none, none⟩) ∧
    (start_camera envOk none init).1.opens = init.opens + 1 :=
  c6_idempotent envOk none none init init rfl

/-- Claim C7 counterexample: the "already running" response of start_camera
carries no `success` key (`success = none`), so not every /start_camera
response has the `{status, success}` shape. -/
theorem c7_counterexample :
    (start_camera envOk none sRun).2 =
      ⟨"Camera is already running", none, none⟩ := rfl

/-- Claim C7 (amended): every start_camera response carries a status string,
and the `success` key is present exactly when the camera was not already
running; the "already running" no-op response carries only `status`. -/
theorem c7_amended_success_key (env : Env) (req : Option Bool) (s : SysState) :
    (start_camera env req s).2.success.isSome = !s.camera.isSome := by
  rcases h : s.camera.isSome <;> rcases hc : env.cameraOpens <;>
    simp [start_camera, h, hc]

/-- Claim C10: /status reports detection_enabled as False whenever the camera
is not running, whatever the stored flag is, and the read leaves the globals
unchanged. -/
theorem c10_status_stopped (env : Env) (s : SysState) (h : s.camera = none) :
    (get_status env s).2.detection_enabled = false ∧
    (get_status env s).1 = s := by
  simp [get_status, h]

/-- Witness for c10_status_stopped at a stopped state whose stored flag is
true. -/
theorem c10_status_stopped_witness :
    (get_status envOk ⟨none, none, true, some (), 3⟩).2.detection_enabled = false ∧
    (get_status envOk ⟨none, none, true, some (), 3⟩).1 =
      ⟨none, none, true, some (), 3⟩ :=
  c10_status_stopped envOk ⟨none, none, true, some (), 3⟩ rfl

/-- Environment in which `yolov5s.pt` is absent (so the model cannot load and
the detector never runs) but the camera device itself works. -/
def envNoModel : Env :=
  ⟨false, false, fun _ => .error (), true, fun _ => some 0, fun _ => true,
   "10.0.0.5"⟩

/-- Claim C2, code behaviour at the failing input: with the model file absent
and the camera available, start_camera still answers "Camera started
successfully" with `success = true`, while the spawned capture_frames thread
returns immediately at the check_model_file guard, so the globals never
change and no frame is ever published. -/
theorem c2_start_succeeds_without_model :
    (start_camera envNoModel none init).2 =
      ⟨"Camera started successfully", some true, none⟩ ∧
    (∀ fuel, capture_frames envNoModel fuel (start_camera envNoModel none init).1 =
      (start_camera envNoModel none init).1) ∧
    (start_camera envNoModel none init).1.output_frame = none := by
  refine ⟨rfl, ?_, rfl⟩
  intro fuel
  simp [capture_frames, check_model_file, envNoModel]

/-- Claim C3, code behaviour at the failing input: after a stop the slot is
empty, and generate's loop body hits `continue` on every pass, yielding
nothing for any number of passes; the while-True loop has no break or return,
so the response never terminates. -/
theorem c3_generator_spins_after_stop (env : Env) (s : SysState)
    (h : s.camera.isSome = true) :
    (stop_camera s).1.output_frame = none ∧
    ∀ n, generate_run env (stop_camera s).1.output_frame n = [] := by
  have hslot : (stop_camera s).1.output_frame = none := by
    rcases hc : s.camera with _ | k
    · rw [hc] at h; simp at h
    · simp [stop_camera, hc]
  refine ⟨hslot, ?_⟩
  intro n
  rw [hslot]
  induction n with
  | zero => rfl
  | succ m ih => simpa [generate_run, generate_step] using ih

/-- Witness for c3_generator_spins_after_stop: five generator passes over the
slot left by stopping a running session yield nothing. -/
theorem c3_generator_spins_witness :
    (stop_camera sRun).1.output_frame = none ∧
    generate_run envOk (stop_camera sRun).1.output_frame 5 = [] :=
  ⟨(c3_generator_spins_after_stop envOk sRun rfl).1,
   (c3_generator_spins_after_stop envOk sRun rfl).2 5⟩

/-- Claim C5: toggling while stopped fails with the "not running" response
and changes nothing; toggling while running flips the flag, reports the new
value with success, and the next published frame's status overlay shows the
new ON/OFF state. -/
theorem c5_toggle_detection (env : Env) (s : SysState) (t raw : Nat)
    (hread : env.cameraRead t = some raw) :
    (s.camera = none →
      toggle_detection s = (s, ⟨"Camera is not running", some false, none⟩)) ∧
    (s.camera.isSome = true →
      (toggle_detection s).1.detection_enabled = !s.detection_enabled ∧
      (toggle_detection s).2 =
        ⟨"Detection toggled successfully", some true,
         some (!s.detection_enabled)⟩ ∧
      publishedStatusText env t (toggle_detection s).1 =
        some (statusOverlay (!s.detection_enabled))) := by
  constructor
  · intro h
    simp [toggle_detection, h]
  · intro h
    rcases hc : s.camera with _ | k
    · rw [hc] at h; simp at h
    · refine ⟨by simp [toggle_detection, hc], by simp [toggle_detection, hc], ?_⟩
      simp [toggle_detection, hc, publishedStatusText, capture_iteration, hread]

/-- Witness for c5_toggle_detection: the stopped case at the initial globals
and the running case at the state after one successful start. -/
theorem c5_toggle_detection_witness :
    toggle_detection init = (init, ⟨"Camera is not running", some false, none⟩) ∧
    ((toggle_detection sRun).1.detection_enabled = !sRun.detection_enabled ∧
     (toggle_detection sRun).2 =
       ⟨"Detection toggled successfully", some true,
        some (!sRun.detection_enabled)⟩ ∧
     publishedStatusText envOk 0 (toggle_detection sRun).1 =
       some (statusOverlay (!sRun.detection_enabled))) :=
  ⟨(c5_toggle_detection envOk init 0 0 rfl).1 rfl,
   (c5_toggle_detection envOk sRun 0 0 rfl).2 rfl⟩

/-- Any completed capture iteration leaves the `camera` global unchanged:
the loop body never assigns to `camera`. -/
theorem capture_iteration_camera (env : Env) (t : Nat) (s s1 : SysState)
    (h : capture_iteration env t s = some s1) : s1.camera = s.camera := by
  unfold capture_iteration at h
  split at h
  · exact absurd h (by simp)
  · split at h
    · injection h with h2
      subst h2
      rfl
    · injection h with h2
      subst h2
      rfl

/-- The capture loop never changes the `camera` global, for any fuel. -/
theorem capture_loop_camera (env : Env) (fuel t : Nat) (s : SysState) :
    (capture_loop env fuel t s).camera = s.camera := by
  induction fuel generalizing t s with
  | zero => rfl
  | succ m ih =>
    unfold capture_loop
    rcases hc : capture_iteration env t s with _ | s1
    · rfl
    · rw [ih (t + 1) s1, capture_iteration_camera env t s s1 hc]

/-- Claim C8: when the detector raises on a frame while detection is enabled,
the exception is swallowed; the capture iteration still publishes the frame
with the status and address overlays but no boxes, and the loop keeps the
session running (the camera handle is untouched for any number of further
iterations). -/
theorem c8_detector_failure_contained (env : Env) (s : SysState) (t raw : Nat)
    (hdet : ∀ m, env.detectorResult m = .error ())
    (hcam : s.camera.isSome = true) (hmodel : s.model = some ())
    (hen : s.detection_enabled = true) (hread : env.cameraRead t = some raw) :
    capture_iteration env t s =
      some { s with output_frame := some (plainFrame env raw true) } ∧
    ∀ fuel t0, (capture_loop env fuel t0 s).camera = s.camera := by
  refine ⟨?_, fun fuel t0 => capture_loop_camera env fuel t0 s⟩
  rcases hc : s.camera with _ | k
  · rw [hc] at hcam; simp at hcam
  · simp [capture_iteration, hc, hread, hen, hmodel, detect_objects,
      run_inference, hdet, plainFrame, SysState.mk.injEq]

/-- Environment whose detector raises on every frame. -/
def envFail : Env :=
  ⟨true, true, fun _ => .error (), true, fun _ => some 0, fun _ => true,
   "10.0.0.5"⟩

/-- A running state with the model loaded and detection enabled. -/
def sDet : SysState := ⟨some 0, none, true, some (), 1⟩

/-- Witness for c8_detector_failure_contained with an always-raising
detector. -/
theorem c8_detector_failure_witness :
    capture_iteration envFail 0 sDet =
      some { sDet with output_frame := some (plainFrame envFail 0 true) } ∧
    (capture_loop envFail 7 0 sDet).camera = sDet.camera :=
  ⟨(c8_detector_failure_contained envFail sDet 0 0 (fun _ => rfl)
      rfl rfl rfl rfl).1,
   (c8_detector_failure_contained envFail sDet 0 0 (fun _ => rfl)
      rfl rfl rfl rfl).2 7 0⟩

/-- One buffer-model capture iteration only writes buffers allocated at or
after the iteration started, so every previously allocated buffer keeps its
contents, and it remains allocated. -/
theorem capture_iter_buf_preserves (env : Env) (enabled : Bool) (t b : Nat)
    (bs : BufState) (hb : b < bs.heap.length) :
    (capture_iter_buf env enabled t bs).heap[b]? = bs.heap[b]? ∧
    b < (capture_iter_buf env enabled t bs).heap.length := by
  unfold capture_iter_buf
  constructor
  · rw [List.getElem?_append_left (by simp [List.length_set]; omega),
        List.getElem?_set_ne (by omega),
        List.getElem?_append_left hb]
  · simp [List.length_set]
    omega

/-- Any number of buffer-model capture iterations preserves the contents of
every buffer allocated before them. -/
theorem capture_run_buf_preserves (env : Env) (enabled : Bool) (b : Nat) :
    ∀ (n tick : Nat) (bs : BufState), b < bs.heap.length →
      (capture_run_buf env enabled n tick bs).heap[b]? = bs.heap[b]? := by
  intro n
  induction n with
  | zero => intro tick bs hb; rfl
  | succ m ih =>
    intro tick bs hb
    have h := capture_iter_buf_preserves env enabled tick b bs hb
    unfold capture_run_buf
    rw [ih (tick + 1) _ h.2, h.1]

/-- Claim C9: publishing stores a fresh copy, so the buffer the slot points
at before any number of further capture iterations is never mutated by them:
its heap cell still holds exactly the frame that was published. -/
theorem c9_published_frame_not_mutated (env : Env) (enabled : Bool)
    (n tick b : Nat) (bs : BufState) (_hslot : bs.slot = some b)
    (hb : b < bs.heap.length) :
    (capture_run_buf env enabled n tick bs).heap[b]? = bs.heap[b]? :=
  capture_run_buf_preserves env enabled b n tick bs hb

/-- Witness for c9_published_frame_not_mutated: a one-buffer heap whose slot
points at buffer 0 keeps that buffer intact over three iterations. -/
theorem c9_published_frame_witness :
    (capture_run_buf envOk true 3 0 ⟨[⟨0, [], none, none⟩], some 0⟩).heap[0]? =
      (⟨[⟨0, [], none, none⟩], some 0⟩ : BufState).heap[0]? :=
  c9_published_frame_not_mutated envOk true 3 0 0
    ⟨[⟨0, [], none, none⟩], some 0⟩ rfl (by decide)

end Run
